import Mathlib

/-!
Verification of the Telegram → ClickUp task-draft bot (`src/main.py`).

The embedding below translates the module-level data and the webhook
dispatcher of `main.py` into pure Lean definitions:

* a draft dict becomes the structure `Draft` (a key that the Python code
  reads with a default is modelled by a field holding that default when
  the key would be absent: `description` defaults to `""`,
  `awaiting_title` to `false`, exactly the defaults every `get` uses);
* the global `DRAFTS` map, restricted to one conversation, becomes an
  `Option Draft` (none = no entry for this chat id);
* outbound HTTP calls become recorded `Effect`s; the ClickUp call's
  outcome and the transport outcome of `answerCallbackQuery` are inputs
  (`CallbackEnv`), since they are decided by the network;
* a Python exception escaping `telegram_webhook` becomes the
  `HandlerOutcome.raised` constructor (FastAPI then answers HTTP 500);
  a normal `return {"ok": True}` becomes `HandlerOutcome.ok`.
-/

/-- One task draft, as stored in `DRAFTS[chat_id]` (main.py lines 150,
224, 236).  `description` is `""` and `awaiting_title` is `false` when
the corresponding dict key is absent, matching `draft.get("description",
"")` and the truthiness test `draft.get("awaiting_title")`. -/
structure Draft where
  title : String
  description : String
  project : String
  priority : Int
  priority_label : String
  due : Option String
  due_label : String
  awaiting_title : Bool
deriving DecidableEq, Repr

/-- The fresh draft literal of main.py lines 150 and 224. -/
def freshDraft : Draft :=
  { title := "", description := "", project := "default", priority := 3,
    priority_label := "Normal", due := none, due_label := "No due date",
    awaiting_title := false }

/-- The new-draft-from-text literal of main.py lines 236-244. -/
def newDraftFromText (text : String) : Draft :=
  { title := text, description := text, project := "default", priority := 3,
    priority_label := "Normal", due := none, due_label := "No due date",
    awaiting_title := false }

/-- The `PRIORITIES` table (main.py line 24). -/
def PRIORITIES : List (String × Int) :=
  [("Urgent", 1), ("High", 2), ("Normal", 3), ("Low", 4)]

/-- The `DUE_CHOICES` table (main.py lines 25-30). -/
def DUE_CHOICES : List (String × Option String) :=
  [("No due date", none), ("Today", some "today"),
   ("Tomorrow", some "tomorrow"), ("This week", some "thisweek")]

/-- The lookup `next((l for l, n in PRIORITIES if n == num), "Normal")` of main.py line 167. -/
def priority_label_of (num : Int) : String :=
  ((PRIORITIES.find? (fun p => p.2 == num)).map Prod.fst).getD "Normal"

/-- Python whitespace, as stripped by `str.strip()` (ASCII part; the
tokens and texts handled here are ASCII-delimited). -/
def pyWhitespace (c : Char) : Bool :=
  c = ' ' ∨ c = '\t' ∨ c = '\n' ∨ c = '\r' ∨ c = '\x0b' ∨ c = '\x0c'

/-- Python `s.strip()` with no argument: drop leading and trailing
whitespace. -/
def pyStrip (s : String) : String :=
  String.mk (((s.data.dropWhile pyWhitespace).reverse.dropWhile
    pyWhitespace).reverse)

/-- ASCII case folding of one character, as Python `str.lower()` does on
ASCII input (the routing keys of interest). -/
def pyLowerChar (c : Char) : Char :=
  if 'A' ≤ c ∧ c ≤ 'Z' then Char.ofNat (c.toNat + 32) else c

/-- Python `s.lower()` (ASCII part). -/
def pyLower (s : String) : String :=
  String.mk (s.data.map pyLowerChar)

/-- Python `s[:n]`: the first `n` characters. -/
def pyTake (s : String) (n : Nat) : String :=
  String.mk (s.data.take n)

/-- The lookup `next((l for l, v in DUE_CHOICES if v == val), val)` of main.py line 180;
`None == val` is false in Python for a string `val`, so only the three
string-valued entries can match. -/
def due_label_of (val : String) : String :=
  ((DUE_CHOICES.find? (fun c => c.2 == some val)).map Prod.fst).getD val

/-- Digits-only decimal reading used by `py_int`. -/
def digitsToNat (cs : List Char) : Option Nat :=
  if cs ≠ [] ∧ cs.all Char.isDigit then
    some (cs.foldl (fun a c => a * 10 + (c.toNat - 48)) 0)
  else none

/-- Python's `int(s)` on a string (main.py line 166): surrounding
whitespace is stripped, an optional sign precedes a non-empty run of
decimal digits; anything else raises `ValueError` (modelled as `none`).
(Python additionally allows `_` grouping between digits and non-ASCII
decimal digits; the dispatcher's own menu never emits such tokens and no
claim below depends on them.) -/
def py_int (s : String) : Option Int :=
  match (pyStrip s).data with
  | '+' :: ds => (digitsToNat ds).map Int.ofNat
  | '-' :: ds => (digitsToNat ds).map (fun n => -(Int.ofNat n))
  | ds => (digitsToNat ds).map Int.ofNat

/-- Python `data.startswith(tag)` combined with `data.split(":", 1)[1]`: when
`tag` (which contains exactly one `:`, at its end) heads the character
list `s`, return what follows; otherwise `none`.  This is exactly how
the dispatcher consumes `set_project:` / `set_priority:` / `set_due:`
tokens (main.py lines 159-160, 165-166, 173-174). -/
def dropTag : List Char → List Char → Option (List Char)
  | [], s => some s
  | _ :: _, [] => none
  | a :: ps, b :: ss => if a = b then dropTag ps ss else none

/-- The characters of the Python literal "set_project:". -/
def projTag : List Char := ['s','e','t','_','p','r','o','j','e','c','t',':']

/-- The characters of the Python literal "set_priority:". -/
def prioTag : List Char := ['s','e','t','_','p','r','i','o','r','i','t','y',':']

/-- The characters of the Python literal "set_due:". -/
def dueTag : List Char := ['s','e','t','_','d','u','e',':']

/-- The function `resolve_list_id` (main.py lines 67-72).  `routing` stands for the
module-level `LIST_ROUTING` (whose keys were lower-cased at load time)
and `defaultListId` for `DEFAULT_LIST_ID`; both come from environment
variables, so they are parameters here.  `some ""` is falsy in Python's
`if project_key:`, hence falls to the default like `none`. -/
def resolve_list_id (routing : List (String × String)) (defaultListId : String)
    (project_key : Option String) : String :=
  match project_key with
  | none => defaultListId
  | some pk =>
    if pk = "" then defaultListId
    else
      match routing.lookup (pyLower (pyStrip pk)) with
      | some v => v
      | none => defaultListId

/-- The function `due_choice_to_epoch_ms` (main.py lines 74-92).  `now` stands for
`int(time.time())`, a parameter since it reads the clock. -/
def due_choice_to_epoch_ms (choice : Option String) (now : Nat) : Option Nat :=
  match choice with
  | none => none
  | some c =>
    let day := 24 * 60 * 60
    if c = "today" then some ((now + 8 * 60 * 60) * 1000)
    else if c = "tomorrow" then some ((now + day + 8 * 60 * 60) * 1000)
    else if c = "thisweek" then some ((now + 3 * day) * 1000)
    else none

/-- The JSON body `create_clickup_task` sends (main.py lines 53-61):
`description` is included only when non-empty (Python truthiness),
`due_date` and `priority` only when not `None`. -/
structure ClickupPayload where
  name : String
  description : Option String
  due_date : Option Nat
  priority : Option Int
deriving DecidableEq, Repr

/-- Payload construction of `create_clickup_task` (main.py lines 55-61). -/
def create_clickup_task_payload (name : String) (description : String)
    (due_date_ms : Option Nat) (priority : Option Int) : ClickupPayload :=
  { name := name,
    description := if description = "" then none else some description,
    due_date := due_date_ms,
    priority := priority }

/-- The text part of `menu_markup` (main.py lines 94-108): reads
`DRAFTS.get(chat_id, {})`, so all four lines fall back to their
defaults when no draft exists.  (The inline keyboard is a fixed list of
buttons independent of the draft's field values; no claim below is
about its layout, only about the tokens it carries, which appear as the
raw `data` strings handled by the dispatcher.) -/
def menu_markup_text (store : Option Draft) : String :=
  let title := match store with | some d => d.title | none => "(none)"
  let project := match store with | some d => d.project | none => "default"
  let prio := match store with | some d => d.priority_label | none => "Normal"
  let due := match store with | some d => d.due_label | none => "No due date"
  "🧾 Task Draft\n• Title: " ++ title ++ "\n• Project/List: " ++ project ++
    "\n• Priority: " ++ prio ++ "\n• Due: " ++ due ++ "\n\nChoose what to set:"

/-- Outbound HTTP calls the handler makes, in order. -/
inductive Effect where
  | answerCallback
  | editMessage (text : String)
  | sendMessage (text : String)
  | apiCreate (list_id : String) (payload : ClickupPayload)
deriving DecidableEq, Repr

/-- How one webhook invocation ends: `ok` is `return {"ok": True}`
(HTTP 200); `raised` is a Python exception escaping `telegram_webhook`
(FastAPI then answers HTTP 500).  Both carry the `DRAFTS` entry for the
conversation and the outbound calls made up to that point. -/
inductive HandlerOutcome where
  | ok (store : Option Draft) (effects : List Effect)
  | raised (msg : String) (store : Option Draft) (effects : List Effect)
deriving DecidableEq, Repr

/-- Environment of one callback invocation: whether the
`answerCallbackQuery` POST succeeds at transport level (a `requests`
transport error raises, main.py lines 50-51 have no try/except), the
outcome of `create_clickup_task` (ok = the created task's name from
`task.get("name")`, error = the exception text), the clock, and the
routing configuration.  `editMessageText` / `sendMessage` transport is
modelled as succeeding; no claim depends on their failure. -/
structure CallbackEnv where
  ackOk : Bool
  apiResult : Except String String
  now : Nat
  routing : List (String × String)
  defaultListId : String

/-- The `callback_query` branch of `telegram_webhook` (main.py lines
139-213), for one conversation.  Mirrors the source order: answer the
callback (line 147), get-or-create the draft (149-152), then the token
dispatch (154-213).  `int()` failing on a malformed `set_priority`
value raises (line 166), with the get-or-created draft already stored. -/
def handleCallback (env : CallbackEnv) (store : Option Draft) (data : String) :
    HandlerOutcome :=
  if env.ackOk then
    let draft := store.getD freshDraft
    if data = "ask_title" then
      HandlerOutcome.ok (some { draft with awaiting_title := true })
        [Effect.answerCallback,
         Effect.editMessage "Reply with the task title (just send a message)."]
    else
      match dropTag projTag data.data with
      | some rest =>
        let d := { draft with project := String.mk rest }
        HandlerOutcome.ok (some d)
          [Effect.answerCallback, Effect.editMessage (menu_markup_text (some d))]
      | none =>
      match dropTag prioTag data.data with
      | some rest =>
        match py_int (String.mk rest) with
        | none =>
          HandlerOutcome.raised "ValueError: invalid literal for int"
            (some draft) [Effect.answerCallback]
        | some num =>
          let d := { draft with priority := num,
                                priority_label := priority_label_of num }
          HandlerOutcome.ok (some d)
            [Effect.answerCallback, Effect.editMessage (menu_markup_text (some d))]
      | none =>
      match dropTag dueTag data.data with
      | some rest =>
        let v := String.mk rest
        let d :=
          if v = "none" then
            { draft with due := none, due_label := "No due date" }
          else
            { draft with due := some v, due_label := due_label_of v }
        HandlerOutcome.ok (some d)
          [Effect.answerCallback, Effect.editMessage (menu_markup_text (some d))]
      | none =>
      if data = "confirm_create" then
        let title := pyStrip draft.title
        if title = "" then
          HandlerOutcome.ok (some draft)
            [Effect.answerCallback,
             Effect.editMessage "❌ Title is empty. Tap “Set/Change Title”."]
        else
          let list_id := resolve_list_id env.routing env.defaultListId
            (if draft.project = "default" then none else some draft.project)
          let due_ms := due_choice_to_epoch_ms draft.due env.now
          let payload := create_clickup_task_payload (pyTake title 200)
            draft.description due_ms (some draft.priority)
          match env.apiResult with
          | Except.ok taskName =>
            HandlerOutcome.ok none
              [Effect.answerCallback, Effect.apiCreate list_id payload,
               Effect.editMessage ("✅ Created in ClickUp: " ++ taskName)]
          | Except.error e =>
            HandlerOutcome.ok (some draft)
              [Effect.answerCallback, Effect.apiCreate list_id payload,
               Effect.editMessage ("❌ Failed to create task: " ++ e)]
      else if data = "cancel" then
        HandlerOutcome.ok none
          [Effect.answerCallback, Effect.editMessage "🗑 Cancelled."]
      else
        HandlerOutcome.ok (some draft) [Effect.answerCallback]
  else
    HandlerOutcome.raised "requests transport error in answer_callback" store []

/-- The `message` / `edited_message` branch of `telegram_webhook`
(main.py lines 215-246): `text = (msg.get("text") or "").strip()`, the
start commands reset to a fresh draft, a pending title is captured (and
the `awaiting_title` key popped), and any other text seeds a brand-new
draft. -/
def handleMessage (store : Option Draft) (msgText : Option String) :
    Option Draft × List Effect :=
  let text := pyStrip (msgText.getD "")
  if text = "/start" ∨ text = "/new" ∨ text = "/task" then
    (some freshDraft, [Effect.sendMessage (menu_markup_text (some freshDraft))])
  else
    match store with
    | some d =>
      if d.awaiting_title then
        let d2 := { d with title := text, awaiting_title := false }
        (some d2, [Effect.sendMessage (menu_markup_text (some d2))])
      else
        let d2 := newDraftFromText text
        (some d2, [Effect.sendMessage (menu_markup_text (some d2))])
    | none =>
      let d2 := newDraftFromText text
      (some d2, [Effect.sendMessage (menu_markup_text (some d2))])

/-- One inbound Telegram update, as classified by `telegram_webhook`
(main.py lines 139, 216-218): a `callback_query` with its `data`, a
`message`/`edited_message` with its optional text, or neither. -/
inductive Update where
  | callback (data : String)
  | message (text : Option String)
  | other
deriving DecidableEq, Repr

/-- The whole `telegram_webhook` endpoint (main.py lines 134-246) for
one conversation. -/
def telegram_webhook (env : CallbackEnv) (store : Option Draft) :
    Update → HandlerOutcome
  | Update.callback data => handleCallback env store data
  | Update.message t =>
    let r := handleMessage store t
    HandlerOutcome.ok r.1 r.2
  | Update.other => HandlerOutcome.ok store []

/-- The `DRAFTS` entry for the conversation after one webhook call
(whether it returned normally or raised). -/
def stepStore (env : CallbackEnv) (store : Option Draft) (u : Update) :
    Option Draft :=
  match telegram_webhook env store u with
  | HandlerOutcome.ok st _ => st
  | HandlerOutcome.raised _ st _ => st

/-- The `DRAFTS` entry after a sequence of webhook calls. -/
def runEvents (env : CallbackEnv) (store : Option Draft)
    (evs : List Update) : Option Draft :=
  evs.foldl (stepStore env) store

/-- A sample environment: acknowledgment succeeds, the ClickUp call
succeeds returning a task named "T", empty routing. -/
def env0 : CallbackEnv :=
  { ackOk := true, apiResult := Except.ok "T", now := 0,
    routing := [], defaultListId := "L" }


/-- The list id the confirm branch resolves (main.py line 190). -/
def confirmListId (env : CallbackEnv) (d : Draft) : String :=
  resolve_list_id env.routing env.defaultListId
    (if d.project = "default" then none else some d.project)

/-- The ClickUp payload the confirm branch sends (main.py lines
191-201): stripped title truncated to 200 characters, the draft's
description, the computed due timestamp, the draft's priority. -/
def confirmPayload (env : CallbackEnv) (d : Draft) : ClickupPayload :=
  create_clickup_task_payload (pyTake (pyStrip d.title) 200) d.description
    (due_choice_to_epoch_ms d.due env.now) (some d.priority)

/-- The due-field update a `set_due:` token with value `v` performs
(main.py lines 175-180). -/
def dueDraft (d : Draft) (v : String) : Draft :=
  if v = "none" then { d with due := none, due_label := "No due date" }
  else { d with due := some v, due_label := due_label_of v }

/-- The draft's priority is one of the four menu values
Urgent=1, High=2, Normal=3, Low=4. -/
def priorityOk (d : Draft) : Bool :=
  [(1 : Int), 2, 3, 4].contains d.priority

/-- The per-conversation store invariant: no draft, or a draft whose
priority is one of the four menu values. -/
def storeOk : Option Draft → Bool
  | none => true
  | some d => priorityOk d

/-- An update whose `set_priority` value (if it is one) parses to one
of the four rendered priority values — i.e. a token the menu itself can
produce. -/
def eventOk : Update → Bool
  | Update.callback data =>
    match dropTag prioTag data.data with
    | some rest =>
      match py_int (String.mk rest) with
      | some num => [(1 : Int), 2, 3, 4].contains num
      | none => false
    | none => true
  | _ => true

/-- Tag consumption `dropTag p s` succeeds with remainder `r` exactly when `s` is `p`
followed by `r`. -/
theorem dropTag_eq_some (p : List Char) :
    ∀ s r, dropTag p s = some r ↔ s = p ++ r := by
  induction p with
  | nil => intro s r; simp [dropTag]
  | cons a ps ih =>
    intro s r
    cases s with
    | nil => simp [dropTag]
    | cons b ss =>
      simp only [dropTag, List.cons_append]
      by_cases h : a = b
      · subst h
        simp [ih]
      · simp only [if_neg h]
        constructor
        · intro hfalse; exact absurd hfalse (by simp)
        · intro heq
          injection heq with hb _
          exact absurd hb.symm h

/-- Tag consumption on its own tag. -/
theorem dropTag_self (p r : List Char) : dropTag p (p ++ r) = some r :=
  (dropTag_eq_some p (p ++ r) r).mpr rfl

/-- A `set_priority:` token never matches the `set_project:` check. -/
theorem dropTag_proj_of_prio (r : List Char) :
    dropTag projTag (prioTag ++ r) = none := by
  simp [projTag, prioTag, dropTag]

/-- A `set_due:` token never matches the `set_project:` check. -/
theorem dropTag_proj_of_due (r : List Char) :
    dropTag projTag (dueTag ++ r) = none := by
  simp [projTag, dueTag, dropTag]

/-- A `set_due:` token never matches the `set_priority:` check. -/
theorem dropTag_prio_of_due (r : List Char) :
    dropTag prioTag (dueTag ++ r) = none := by
  simp [prioTag, dueTag, dropTag]

/-- String concatenation concatenates the character lists. -/
theorem str_data_append (a b : String) : (a ++ b).data = a.data ++ b.data := rfl

/-- A string whose characters start with 's' differs from any string
literal that does not start with 's'. -/
theorem tagged_ne (data : String) (t v : List Char) (lit : String)
    (hd : data.data = t ++ v) (h1 : t.head? = some 's')
    (h2 : lit.data.head? ≠ some 's') : data ≠ lit := by
  intro h
  subst h
  cases t with
  | nil => simp at h1
  | cons a ts =>
    simp only [List.head?] at h1
    rw [hd] at h2
    simp only [List.cons_append, List.head?] at h2
    exact h2 h1

/-- Dispatch of a `set_project:` token (main.py lines 159-163): the
draft's `project` is set to everything after the first `:` and the menu
is re-rendered in place. -/
theorem handleCallback_set_project (env : CallbackEnv) (store : Option Draft)
    (data : String) (v : List Char) (hack : env.ackOk = true)
    (hd : data.data = projTag ++ v) :
    handleCallback env store data =
      HandlerOutcome.ok
        (some { (store.getD freshDraft) with project := String.mk v })
        [Effect.answerCallback,
         Effect.editMessage (menu_markup_text
           (some { (store.getD freshDraft) with project := String.mk v }))] := by
  have hne := tagged_ne data projTag v "ask_title" hd (by decide) (by decide)
  unfold handleCallback
  rw [if_pos hack, if_neg hne, hd, dropTag_self]

/-- Dispatch of a `set_priority:` token whose value parses as an
integer (main.py lines 165-171). -/
theorem handleCallback_set_priority (env : CallbackEnv) (store : Option Draft)
    (data : String) (v : List Char) (num : Int) (hack : env.ackOk = true)
    (hd : data.data = prioTag ++ v) (hv : py_int (String.mk v) = some num) :
    handleCallback env store data =
      HandlerOutcome.ok
        (some { (store.getD freshDraft) with
                priority := num,
                priority_label := priority_label_of num })
        [Effect.answerCallback,
         Effect.editMessage (menu_markup_text
           (some { (store.getD freshDraft) with
                   priority := num,
                   priority_label := priority_label_of num }))] := by
  have hne := tagged_ne data prioTag v "ask_title" hd (by decide) (by decide)
  unfold handleCallback
  rw [if_pos hack, if_neg hne, hd, dropTag_proj_of_prio, dropTag_self]
  simp only [hv]

/-- Dispatch of a `set_priority:` token whose value does not parse as
an integer: `int()` raises `ValueError` (main.py line 166) after the
callback was answered and the draft get-or-created. -/
theorem handleCallback_set_priority_raises (env : CallbackEnv)
    (store : Option Draft) (data : String) (v : List Char)
    (hack : env.ackOk = true) (hd : data.data = prioTag ++ v)
    (hv : py_int (String.mk v) = none) :
    handleCallback env store data =
      HandlerOutcome.raised "ValueError: invalid literal for int"
        (some (store.getD freshDraft)) [Effect.answerCallback] := by
  have hne := tagged_ne data prioTag v "ask_title" hd (by decide) (by decide)
  unfold handleCallback
  rw [if_pos hack, if_neg hne, hd, dropTag_proj_of_prio, dropTag_self]
  simp only [hv]

/-- Dispatch of a `set_due:none` token (main.py lines 173-177, 181). -/
theorem handleCallback_set_due_none (env : CallbackEnv) (store : Option Draft)
    (data : String) (v : List Char) (hack : env.ackOk = true)
    (hd : data.data = dueTag ++ v) (hv : String.mk v = "none") :
    handleCallback env store data =
      HandlerOutcome.ok
        (some { (store.getD freshDraft) with
                due := none,
                due_label := "No due date" })
        [Effect.answerCallback,
         Effect.editMessage (menu_markup_text
           (some { (store.getD freshDraft) with
                   due := none,
                   due_label := "No due date" }))] := by
  have hne := tagged_ne data dueTag v "ask_title" hd (by decide) (by decide)
  unfold handleCallback
  rw [if_pos hack, if_neg hne, hd, dropTag_proj_of_due, dropTag_prio_of_due,
    dropTag_self]
  simp [hv]

/-- Dispatch of a `set_due:` token whose value is not `none`
(main.py lines 173-174, 178-181). -/
theorem handleCallback_set_due_some (env : CallbackEnv) (store : Option Draft)
    (data : String) (v : List Char) (hack : env.ackOk = true)
    (hd : data.data = dueTag ++ v) (hv : String.mk v ≠ "none") :
    handleCallback env store data =
      HandlerOutcome.ok
        (some { (store.getD freshDraft) with
                due := some (String.mk v),
                due_label := due_label_of (String.mk v) })
        [Effect.answerCallback,
         Effect.editMessage (menu_markup_text
           (some { (store.getD freshDraft) with
                   due := some (String.mk v),
                   due_label := due_label_of (String.mk v) }))] := by
  have hne := tagged_ne data dueTag v "ask_title" hd (by decide) (by decide)
  unfold handleCallback
  rw [if_pos hack, if_neg hne, hd, dropTag_proj_of_due, dropTag_prio_of_due,
    dropTag_self]
  simp only [if_neg hv]


/-- Dispatch of `ask_title` (main.py lines 154-157). -/
theorem handleCallback_ask_title (env : CallbackEnv) (store : Option Draft)
    (hack : env.ackOk = true) :
    handleCallback env store "ask_title" =
      HandlerOutcome.ok
        (some { (store.getD freshDraft) with awaiting_title := true })
        [Effect.answerCallback,
         Effect.editMessage "Reply with the task title (just send a message)."] := by
  unfold handleCallback
  rw [if_pos hack, if_pos rfl]

/-- Dispatch of `confirm_create` when the stripped title is empty
(main.py lines 184-188): inline error, draft untouched, no API call. -/
theorem handleCallback_confirm_empty (env : CallbackEnv) (store : Option Draft)
    (hack : env.ackOk = true)
    (ht : pyStrip (store.getD freshDraft).title = "") :
    handleCallback env store "confirm_create" =
      HandlerOutcome.ok (some (store.getD freshDraft))
        [Effect.answerCallback,
         Effect.editMessage "❌ Title is empty. Tap “Set/Change Title”."] := by
  unfold handleCallback
  rw [if_pos hack,
    if_neg (show ("confirm_create" : String) ≠ "ask_title" from by decide),
    show dropTag projTag ("confirm_create" : String).data = none from by decide,
    show dropTag prioTag ("confirm_create" : String).data = none from by decide,
    show dropTag dueTag ("confirm_create" : String).data = none from by decide]
  simp [ht]

/-- Dispatch of `confirm_create` with a non-empty stripped title when
the ClickUp call succeeds (main.py lines 190-203): the draft is
removed. -/
theorem handleCallback_confirm_created (env : CallbackEnv)
    (store : Option Draft) (name : String) (hack : env.ackOk = true)
    (ht : pyStrip (store.getD freshDraft).title ≠ "")
    (hapi : env.apiResult = Except.ok name) :
    handleCallback env store "confirm_create" =
      HandlerOutcome.ok none
        [Effect.answerCallback,
         Effect.apiCreate (confirmListId env (store.getD freshDraft))
           (confirmPayload env (store.getD freshDraft)),
         Effect.editMessage ("✅ Created in ClickUp: " ++ name)] := by
  unfold handleCallback
  rw [if_pos hack,
    if_neg (show ("confirm_create" : String) ≠ "ask_title" from by decide),
    show dropTag projTag ("confirm_create" : String).data = none from by decide,
    show dropTag prioTag ("confirm_create" : String).data = none from by decide,
    show dropTag dueTag ("confirm_create" : String).data = none from by decide]
  simp [if_neg ht, hapi, confirmListId, confirmPayload]

/-- Dispatch of `confirm_create` with a non-empty stripped title when
the ClickUp call fails (main.py lines 204-206): the draft is kept
exactly as it was. -/
theorem handleCallback_confirm_failed (env : CallbackEnv)
    (store : Option Draft) (e : String) (hack : env.ackOk = true)
    (ht : pyStrip (store.getD freshDraft).title ≠ "")
    (hapi : env.apiResult = Except.error e) :
    handleCallback env store "confirm_create" =
      HandlerOutcome.ok (some (store.getD freshDraft))
        [Effect.answerCallback,
         Effect.apiCreate (confirmListId env (store.getD freshDraft))
           (confirmPayload env (store.getD freshDraft)),
         Effect.editMessage ("❌ Failed to create task: " ++ e)] := by
  unfold handleCallback
  rw [if_pos hack,
    if_neg (show ("confirm_create" : String) ≠ "ask_title" from by decide),
    show dropTag projTag ("confirm_create" : String).data = none from by decide,
    show dropTag prioTag ("confirm_create" : String).data = none from by decide,
    show dropTag dueTag ("confirm_create" : String).data = none from by decide]
  simp [if_neg ht, hapi, confirmListId, confirmPayload]

/-- Dispatch of `cancel` (main.py lines 208-211): the draft is removed. -/
theorem handleCallback_cancel (env : CallbackEnv) (store : Option Draft)
    (hack : env.ackOk = true) :
    handleCallback env store "cancel" =
      HandlerOutcome.ok none
        [Effect.answerCallback, Effect.editMessage "🗑 Cancelled."] := by
  unfold handleCallback
  rw [if_pos hack,
    if_neg (show ("cancel" : String) ≠ "ask_title" from by decide),
    show dropTag projTag ("cancel" : String).data = none from by decide,
    show dropTag prioTag ("cancel" : String).data = none from by decide,
    show dropTag dueTag ("cancel" : String).data = none from by decide]
  simp [if_neg (show ("cancel" : String) ≠ "confirm_create" from by decide)]

/-- Dispatch of any unrecognized token (main.py line 213): the
get-or-created draft stays, nothing else happens, `{"ok": True}`. -/
theorem handleCallback_unknown (env : CallbackEnv) (store : Option Draft)
    (data : String) (hack : env.ackOk = true) (h1 : data ≠ "ask_title")
    (h2 : dropTag projTag data.data = none)
    (h3 : dropTag prioTag data.data = none)
    (h4 : dropTag dueTag data.data = none)
    (h5 : data ≠ "confirm_create") (h6 : data ≠ "cancel") :
    handleCallback env store data =
      HandlerOutcome.ok (some (store.getD freshDraft))
        [Effect.answerCallback] := by
  unfold handleCallback
  rw [if_pos hack, if_neg h1, h2, h3, h4]
  simp only [if_neg h5, if_neg h6]

/-- When the `answerCallbackQuery` POST fails at transport level, the
exception escapes before anything else happens (main.py line 147). -/
theorem handleCallback_ack_failure (env : CallbackEnv) (store : Option Draft)
    (data : String) (hack : env.ackOk = false) :
    handleCallback env store data =
      HandlerOutcome.raised "requests transport error in answer_callback"
        store [] := by
  unfold handleCallback
  rw [if_neg (by simp [hack])]

/-- Claim C1 (code bug): the claim says every malformed or unrecognized
callback token is handled without raising.  An unrecognized action kind
("unknown_action") is indeed a silent no-op, but a `set_priority` token
whose value part is not a decimal integer makes `int()` raise
`ValueError` (main.py line 166), so handling terminates with an
exception (FastAPI answers HTTP 500). -/
theorem C1_malformed_priority_token_raises :
    handleCallback env0 none "set_priority:x" =
      HandlerOutcome.raised "ValueError: invalid literal for int"
        (some freshDraft) [Effect.answerCallback]
    ∧ handleCallback env0 none "unknown_action" =
      HandlerOutcome.ok (some freshDraft) [Effect.answerCallback] :=
  ⟨by decide, by decide⟩

/-- Claim C2 counterexample: a `set_priority:7` token (a well-formed
integer that is not one of the four rendered values) is accepted by the
dispatcher and stores priority 7 in the draft — with the label
defaulting to "Normal" — so the invariant as claimed (for ANY token
value) fails. -/
theorem C2_counterexample :
    runEvents env0 none [Update.callback "set_priority:7"] =
      some { freshDraft with priority := 7, priority_label := "Normal" }
    ∧ (7 : Int) ∉ ([1, 2, 3, 4] : List Int) :=
  ⟨by decide, by decide⟩

/-- Claim C3: pressing confirm with an empty-after-strip title edits
the message with an inline error, performs no ClickUp API call (the
effect list contains none), and leaves the draft exactly as it was
(same `some d` entry, all fields intact, `awaiting_title` untouched). -/
theorem C3_empty_title_never_calls_api (env : CallbackEnv) (d : Draft)
    (hack : env.ackOk = true) (ht : pyStrip d.title = "") :
    handleCallback env (some d) "confirm_create" =
      HandlerOutcome.ok (some d)
        [Effect.answerCallback,
         Effect.editMessage "❌ Title is empty. Tap “Set/Change Title”."] :=
  handleCallback_confirm_empty env (some d) hack ht

/-- Witness for C3 at a concrete draft whose title is whitespace. -/
theorem C3_witness :
    handleCallback env0
      (some { title := "   ", description := "x", project := "p",
              priority := 2, priority_label := "High", due := some "today",
              due_label := "Today", awaiting_title := false })
      "confirm_create" =
      HandlerOutcome.ok
        (some { title := "   ", description := "x", project := "p",
                priority := 2, priority_label := "High", due := some "today",
                due_label := "Today", awaiting_title := false })
        [Effect.answerCallback,
         Effect.editMessage "❌ Title is empty. Tap “Set/Change Title”."] :=
  C3_empty_title_never_calls_api env0
    { title := "   ", description := "x", project := "p",
      priority := 2, priority_label := "High", due := some "today",
      due_label := "Today", awaiting_title := false } rfl (by decide)

/-- Claim C4: on confirm with a valid (non-empty after strip) title,
a successful ClickUp call removes the conversation's draft entirely,
while any API error keeps the very same draft (all fields intact) so
the user can retry. -/
theorem C4_confirm_success_removes_failure_keeps (env : CallbackEnv)
    (d : Draft) (hack : env.ackOk = true) (ht : pyStrip d.title ≠ "") :
    (∀ name, env.apiResult = Except.ok name →
      handleCallback env (some d) "confirm_create" =
        HandlerOutcome.ok none
          [Effect.answerCallback,
           Effect.apiCreate (confirmListId env d) (confirmPayload env d),
           Effect.editMessage ("✅ Created in ClickUp: " ++ name)])
    ∧ (∀ e, env.apiResult = Except.error e →
      handleCallback env (some d) "confirm_create" =
        HandlerOutcome.ok (some d)
          [Effect.answerCallback,
           Effect.apiCreate (confirmListId env d) (confirmPayload env d),
           Effect.editMessage ("❌ Failed to create task: " ++ e)]) :=
  ⟨fun name h => handleCallback_confirm_created env (some d) name hack ht h,
   fun e h => handleCallback_confirm_failed env (some d) e hack ht h⟩

/-- Witness for C4: a concrete successful submission removes the draft. -/
theorem C4_witness :
    handleCallback env0 (some { freshDraft with title := "A" })
      "confirm_create" =
      HandlerOutcome.ok none
        [Effect.answerCallback,
         Effect.apiCreate (confirmListId env0 { freshDraft with title := "A" })
           (confirmPayload env0 { freshDraft with title := "A" }),
         Effect.editMessage ("✅ Created in ClickUp: " ++ "T")] :=
  (C4_confirm_success_removes_failure_keeps env0
    { freshDraft with title := "A" } rfl (by decide)).1 "T" rfl

/-- Claim C5: the due-date computation at submission time: None → no
due field in the API payload at all; today → (now + 8*3600)*1000;
tomorrow → (now + 24*3600 + 8*3600)*1000; thisweek →
(now + 3*24*3600)*1000 epoch milliseconds. -/
theorem C5_due_date_policy (now : Nat) (name description : String)
    (prio : Option Int) :
    due_choice_to_epoch_ms none now = none
    ∧ due_choice_to_epoch_ms (some "today") now =
        some ((now + 8 * 3600) * 1000)
    ∧ due_choice_to_epoch_ms (some "tomorrow") now =
        some ((now + 24 * 3600 + 8 * 3600) * 1000)
    ∧ due_choice_to_epoch_ms (some "thisweek") now =
        some ((now + 3 * 24 * 3600) * 1000)
    ∧ (create_clickup_task_payload name description
        (due_choice_to_epoch_ms none now) prio).due_date = none := by
  refine ⟨rfl, ?_, ?_, ?_, rfl⟩
  · norm_num [due_choice_to_epoch_ms]
  · norm_num [due_choice_to_epoch_ms]
    decide
  · norm_num [due_choice_to_epoch_ms]
    rw [if_neg (by decide : ¬("thisweek" : String) = "today"),
      if_neg (by decide : ¬("thisweek" : String) = "tomorrow")]

/-- Claim C8 (code bug): the claim says an acknowledgment failure never
aborts the handling and the handler always returns success.  But
`answer_callback` (main.py line 147) has no try/except: a `requests`
transport error there escapes `telegram_webhook` before any draft work,
so the handler returns a failure status (HTTP 500). -/
theorem C8_ack_transport_failure_aborts :
    telegram_webhook { env0 with ackOk := false } none
      (Update.callback "cancel") =
      HandlerOutcome.raised "requests transport error in answer_callback"
        none [] := by decide

/-- Claim C9 counterexample: with routing {"dev" ↦ "L1"} and default
"D", the present key " dev" (leading space) lower-cases to " dev",
which matches no configured key — so by the claimed policy the default
"D" should be returned — yet the code returns the mapped id "L1",
because `resolve_list_id` also strips whitespace (line 69). -/
theorem C9_counterexample :
    resolve_list_id [("dev", "L1")] "D" (some " dev") = "L1"
    ∧ List.lookup (pyLower " dev") [("dev", "L1")] = none
    ∧ "L1" ≠ "D" :=
  ⟨by decide, by decide, by decide⟩

/-- Claim C9 as amended: list-id resolution is total and follows the
policy with the key TRIMMED and lower-cased: absent or empty key →
default; trimmed+lower-cased key configured → its mapped id; otherwise
→ default. -/
theorem C9_resolve_amended (routing : List (String × String))
    (defaultId : String) (pk : Option String) :
    (pk = none → resolve_list_id routing defaultId pk = defaultId)
    ∧ (pk = some "" → resolve_list_id routing defaultId pk = defaultId)
    ∧ (∀ s v, pk = some s → s ≠ "" →
        routing.lookup (pyLower (pyStrip s)) = some v →
        resolve_list_id routing defaultId pk = v)
    ∧ (∀ s, pk = some s → s ≠ "" →
        routing.lookup (pyLower (pyStrip s)) = none →
        resolve_list_id routing defaultId pk = defaultId) := by
  refine ⟨?_, ?_, ?_, ?_⟩
  · intro h; subst h; rfl
  · intro h; subst h; rfl
  · intro s v h hne hl
    subst h
    simp [resolve_list_id, if_neg hne, hl]
  · intro s h hne hl
    subst h
    simp [resolve_list_id, if_neg hne, hl]

/-- Witness for C9: an upper-cased configured key resolves to its
mapped list id. -/
theorem C9_witness :
    resolve_list_id [("dev", "L1")] "D" (some "DEV") = "L1" :=
  (C9_resolve_amended [("dev", "L1")] "D" (some "DEV")).2.2.1 "DEV" "L1"
    rfl (by decide) (by decide)

/-- Claim C10: a button press for a conversation with no draft behaves
exactly as if a fresh default draft (title "", project "default",
priority Normal=3, due None) had first been created and the action then
applied to it (main.py lines 149-152); the event is not rejected. -/
theorem C10_no_draft_gets_fresh_default (env : CallbackEnv) (data : String)
    (hack : env.ackOk = true) :
    handleCallback env none data = handleCallback env (some freshDraft) data
    ∧ freshDraft.title = "" ∧ freshDraft.project = "default"
    ∧ freshDraft.priority = 3 ∧ freshDraft.due = none := by
  refine ⟨?_, rfl, rfl, rfl, rfl⟩
  unfold handleCallback
  simp only [if_pos hack]
  rfl

/-- Witness for C10 at a concrete token. -/
theorem C10_witness :
    handleCallback env0 none "cancel" =
      handleCallback env0 (some freshDraft) "cancel"
    ∧ freshDraft.title = "" ∧ freshDraft.project = "default"
    ∧ freshDraft.priority = 3 ∧ freshDraft.due = none :=
  C10_no_draft_gets_fresh_default env0 "cancel" rfl

/-- Claim C7 counterexample: while awaiting a title, the message
" hi " (with surrounding spaces) yields title "hi", not the verbatim
text — the dispatcher strips the text first (main.py line 221). -/
theorem C7_counterexample :
    (handleMessage (some { freshDraft with awaiting_title := true })
        (some " hi ")).1 = some { freshDraft with title := "hi" }
    ∧ "hi" ≠ " hi " :=
  ⟨by decide, by decide⟩

/-- Applying the same due update twice converges to the same draft. -/
theorem dueDraft_idem (d : Draft) (v : String) :
    dueDraft (dueDraft d v) v = dueDraft d v := by
  by_cases hv : v = "none" <;> simp [dueDraft, hv]

/-- Claim C6: each `set_project:` / `set_priority:` / `set_due:` button
action mutates exactly the targeted field of the draft (the structure
updates below leave every other field of `d` untouched; for priority
and due, the stored label is part of the targeted field), and applying
the same action to its own result leaves the draft unchanged
(idempotence). -/
theorem C6_field_actions_frame_and_idempotent (env : CallbackEnv) (d : Draft)
    (hack : env.ackOk = true) :
    (∀ proj : String,
      (∃ effs, handleCallback env (some d) ("set_project:" ++ proj) =
        HandlerOutcome.ok (some { d with project := proj }) effs)
      ∧ (∃ effs,
        handleCallback env (some { d with project := proj })
            ("set_project:" ++ proj) =
          HandlerOutcome.ok (some { d with project := proj }) effs))
    ∧ (∀ (s : String) (num : Int), py_int s = some num →
      (∃ effs, handleCallback env (some d) ("set_priority:" ++ s) =
        HandlerOutcome.ok
          (some { d with
              priority := num,
              priority_label := priority_label_of num }) effs)
      ∧ (∃ effs,
        handleCallback env
            (some { d with
                priority := num,
                priority_label := priority_label_of num })
            ("set_priority:" ++ s) =
          HandlerOutcome.ok
            (some { d with
                priority := num,
                priority_label := priority_label_of num }) effs))
    ∧ (∀ v : String,
      (∃ effs, handleCallback env (some d) ("set_due:" ++ v) =
        HandlerOutcome.ok (some (dueDraft d v)) effs)
      ∧ (∃ effs,
        handleCallback env (some (dueDraft d v)) ("set_due:" ++ v) =
          HandlerOutcome.ok (some (dueDraft d v)) effs)) := by
  refine ⟨?_, ?_, ?_⟩
  · intro proj
    constructor
    · exact ⟨_, handleCallback_set_project env (some d)
        ("set_project:" ++ proj) proj.data hack rfl⟩
    · exact ⟨_, handleCallback_set_project env (some { d with project := proj })
        ("set_project:" ++ proj) proj.data hack rfl⟩
  · intro s num h
    constructor
    · exact ⟨_, handleCallback_set_priority env (some d)
        ("set_priority:" ++ s) s.data num hack rfl h⟩
    · exact ⟨_, handleCallback_set_priority env
        (some { d with
            priority := num, priority_label := priority_label_of num })
        ("set_priority:" ++ s) s.data num hack rfl h⟩
  · intro v
    by_cases hv : v = "none"
    · subst hv
      constructor
      · exact ⟨_, handleCallback_set_due_none env (some d)
          ("set_due:" ++ "none") "none".data hack rfl rfl⟩
      · exact ⟨_, handleCallback_set_due_none env (some (dueDraft d "none"))
          ("set_due:" ++ "none") "none".data hack rfl rfl⟩
    · have hdue : dueDraft d v =
          { d with due := some v, due_label := due_label_of v } := by
        simp [dueDraft, hv]
      constructor
      · rw [hdue]
        exact ⟨_, handleCallback_set_due_some env (some d)
          ("set_due:" ++ v) v.data hack rfl hv⟩
      · rw [hdue]
        exact ⟨_, handleCallback_set_due_some env
          (some { d with due := some v, due_label := due_label_of v })
          ("set_due:" ++ v) v.data hack rfl hv⟩

/-- Witness for C6: setting priority 2 on a fresh draft, and once more
on the result, both yield the same single-field update. -/
theorem C6_witness :
    (∃ effs, handleCallback env0 (some freshDraft) ("set_priority:" ++ "2") =
      HandlerOutcome.ok
        (some { freshDraft with
            priority := 2, priority_label := priority_label_of 2 }) effs)
    ∧ (∃ effs, handleCallback env0
        (some { freshDraft with
            priority := 2, priority_label := priority_label_of 2 })
        ("set_priority:" ++ "2") =
      HandlerOutcome.ok
        (some { freshDraft with
            priority := 2, priority_label := priority_label_of 2 }) effs) :=
  (C6_field_actions_frame_and_idempotent env0 freshDraft rfl).2.1 "2" 2
    (by decide)

/-- Claim C7 as amended: the inbound text is stripped of surrounding
whitespace first (main.py line 221), and the start commands take
precedence; for any non-command text, a conversation awaiting a title
gets the STRIPPED text as title (awaiting flag cleared, nothing else
changed), and any other conversation state gets a brand-new draft whose
title and description are both the stripped text with every other
field at its default.  (The verbatim-text claim is refuted by
`C7_counterexample`.) -/
theorem C7_text_message_amended (store : Option Draft) (text : String)
    (hcmd : pyStrip text ≠ "/start" ∧ pyStrip text ≠ "/new" ∧
      pyStrip text ≠ "/task") :
    (∀ d, store = some d → d.awaiting_title = true →
      (handleMessage store (some text)).1 =
        some { d with title := pyStrip text, awaiting_title := false })
    ∧ ((store = none ∨ ∃ d, store = some d ∧ d.awaiting_title = false) →
      (handleMessage store (some text)).1 =
        some (newDraftFromText (pyStrip text))) := by
  constructor
  · intro d hd haw
    subst hd
    simp only [handleMessage, Option.getD]
    rw [if_neg (by simp [hcmd.1, hcmd.2.1, hcmd.2.2])]
    simp [haw]
  · intro hcase
    rcases hcase with h | ⟨d, hd, haw⟩
    · subst h
      simp only [handleMessage, Option.getD]
      rw [if_neg (by simp [hcmd.1, hcmd.2.1, hcmd.2.2])]
    · subst hd
      simp only [handleMessage, Option.getD]
      rw [if_neg (by simp [hcmd.1, hcmd.2.1, hcmd.2.2])]
      simp [haw]

/-- Witness for C7: plain text "Buy milk" with no prior draft seeds a
brand-new draft from the stripped text. -/
theorem C7_witness :
    (handleMessage none (some "Buy milk")).1 =
      some (newDraftFromText (pyStrip "Buy milk")) :=
  (C7_text_message_amended none "Buy milk" (by decide)).2 (Or.inl rfl)

/-- One webhook call preserves the priority invariant, provided any
`set_priority` value in the event is one of the four rendered values. -/
theorem stepStore_priorityOk (env : CallbackEnv) (store : Option Draft)
    (u : Update) (hs : storeOk store = true) (he : eventOk u = true) :
    storeOk (stepStore env store u) = true := by
  have hgd : priorityOk (store.getD freshDraft) = true := by
    cases store with
    | none => decide
    | some d => simpa [storeOk] using hs
  cases u with
  | other => simpa [stepStore, telegram_webhook] using hs
  | message t =>
    simp only [stepStore, telegram_webhook]
    by_cases hcmd : pyStrip (t.getD "") = "/start" ∨
      pyStrip (t.getD "") = "/new" ∨ pyStrip (t.getD "") = "/task"
    · simp [handleMessage, hcmd, storeOk, priorityOk, freshDraft]
    · cases store with
      | none =>
        simp [handleMessage, if_neg hcmd, storeOk, priorityOk, newDraftFromText]
      | some d =>
        by_cases haw : d.awaiting_title
        · simp only [handleMessage, if_neg hcmd, haw, if_true]
          simpa [storeOk, priorityOk] using hs
        · simp [handleMessage, if_neg hcmd, haw, storeOk, priorityOk,
            newDraftFromText]
  | callback data =>
    cases hak : env.ackOk with
    | false =>
      simpa [stepStore, telegram_webhook,
        handleCallback_ack_failure env store data hak] using hs
    | true =>
      by_cases h1 : data = "ask_title"
      · subst h1
        simp only [stepStore, telegram_webhook,
          handleCallback_ask_title env store hak]
        simpa [storeOk, priorityOk] using hgd
      · cases h2 : dropTag projTag data.data with
        | some v =>
          simp only [stepStore, telegram_webhook,
            handleCallback_set_project env store data v hak
              ((dropTag_eq_some projTag data.data v).mp h2)]
          simpa [storeOk, priorityOk] using hgd
        | none =>
          cases h3 : dropTag prioTag data.data with
          | some v =>
            cases h4 : py_int (String.mk v) with
            | none =>
              simp only [stepStore, telegram_webhook,
                handleCallback_set_priority_raises env store data v hak
                  ((dropTag_eq_some prioTag data.data v).mp h3) h4]
              simpa [storeOk] using hgd
            | some num =>
              have hnum : ([(1 : Int), 2, 3, 4].contains num) = true := by
                simp only [eventOk, h3, h4] at he
                exact he
              simp only [stepStore, telegram_webhook,
                handleCallback_set_priority env store data v num hak
                  ((dropTag_eq_some prioTag data.data v).mp h3) h4]
              simpa [storeOk, priorityOk] using hnum
          | none =>
            cases h5 : dropTag dueTag data.data with
            | some v =>
              by_cases hv : String.mk v = "none"
              · simp only [stepStore, telegram_webhook,
                  handleCallback_set_due_none env store data v hak
                    ((dropTag_eq_some dueTag data.data v).mp h5) hv]
                simpa [storeOk, priorityOk] using hgd
              · simp only [stepStore, telegram_webhook,
                  handleCallback_set_due_some env store data v hak
                    ((dropTag_eq_some dueTag data.data v).mp h5) hv]
                simpa [storeOk, priorityOk] using hgd
            | none =>
              by_cases h6 : data = "confirm_create"
              · subst h6
                by_cases ht : pyStrip (store.getD freshDraft).title = ""
                · simp only [stepStore, telegram_webhook,
                    handleCallback_confirm_empty env store hak ht]
                  simpa [storeOk] using hgd
                · cases hapi : env.apiResult with
                  | ok name =>
                    simp only [stepStore, telegram_webhook,
                      handleCallback_confirm_created env store name hak ht hapi]
                    rfl
                  | error e =>
                    simp only [stepStore, telegram_webhook,
                      handleCallback_confirm_failed env store e hak ht hapi]
                    simpa [storeOk] using hgd
              · by_cases h7 : data = "cancel"
                · subst h7
                  simp only [stepStore, telegram_webhook,
                    handleCallback_cancel env store hak]
                  rfl
                · simp only [stepStore, telegram_webhook,
                    handleCallback_unknown env store data hak h1 h2 h3 h5 h6 h7]
                  simpa [storeOk] using hgd

/-- Claim C2 as amended: starting from no draft, any sequence of
webhook events in which every `set_priority` token's value parses to
one of the four rendered values 1-4 (the only tokens the menu itself
produces) keeps the stored priority rank in {Urgent=1, High=2,
Normal=3, Low=4}.  (The unrestricted "any token value" claim is
refuted by `C2_counterexample`: the dispatcher stores any integer it
can parse.) -/
theorem C2_priority_invariant_amended (env : CallbackEnv)
    (evs : List Update) (h : ∀ u ∈ evs, eventOk u = true) :
    storeOk (runEvents env none evs) = true := by
  have hgen : ∀ (l : List Update) (store : Option Draft),
      storeOk store = true → (∀ u ∈ l, eventOk u = true) →
      storeOk (runEvents env store l) = true := by
    intro l
    induction l with
    | nil => intro store hs _; simpa [runEvents] using hs
    | cons u us ih =>
      intro store hs hall
      have h1 := stepStore_priorityOk env store u hs (hall u (by simp))
      have h2 := ih (stepStore env store u) h1
        (fun x hx => hall x (List.mem_cons_of_mem _ hx))
      simpa [runEvents, List.foldl_cons] using h2
  exact hgen evs none rfl h

/-- Witness for C2: a concrete session (new draft from text, priority
High, confirm) keeps the invariant. -/
theorem C2_witness :
    storeOk (runEvents env0 none
      [Update.message (some "hello"), Update.callback "set_priority:2",
       Update.callback "confirm_create"]) = true :=
  C2_priority_invariant_amended env0
    [Update.message (some "hello"), Update.callback "set_priority:2",
     Update.callback "confirm_create"] (by decide)
